import Mathlib

set_option maxRecDepth 8000

namespace K8sSecRag

/-!
Verification development for the Kubernetes-security-rag repository.

This file embeds the modules `src/yaml_analyzer.py`, `src/schema.py`,
`src/security_data.py`, `src/crawler/version_manager.py` and
`src/versioned_vector_store.py` as Lean definitions and proves properties
of them.  Python values loaded from YAML are modelled by the inductive type
`Yaml`; a Python runtime error that may escape a function is modelled with
`Except String`; Python `float` arithmetic on scores is modelled with `Rat`
(the score formula `secure / total * 100` is exact at the sizes involved).
-/

/-- A Python value as produced by `yaml.safe_load`: `None`, `bool`, `int`,
`str`, `list` or `dict`.  A `dict` is modelled by its association list in
insertion order; keys of a Python `dict` are unique, and lookups take the
first match. -/
inductive Yaml where
  | null
  | bool (b : Bool)
  | int (n : Int)
  | str (s : String)
  | list (xs : List Yaml)
  | dict (kvs : List (String × Yaml))

/-- Python truthiness `bool(v)` of a loaded YAML value. -/
def pyTruthy : Yaml → Bool
  | .null => false
  | .bool b => b
  | .int n => n != 0
  | .str s => !s.isEmpty
  | .list xs => !xs.isEmpty
  | .dict kvs => !kvs.isEmpty

/-- Python equality `v == s` against a `str` literal: only a `str` with the
same contents compares equal; every other type compares unequal (no error). -/
def Yaml.eqStr : Yaml → String → Bool
  | .str t, s => t == s
  | _, _ => false

/-- Prefix test on character lists. -/
def listIsPrefix : List Char → List Char → Bool
  | [], _ => true
  | _ :: _, [] => false
  | p :: ps, c :: cs => p == c && listIsPrefix ps cs

/-- Infix test on character lists. -/
def listIsInfix (pat : List Char) : List Char → Bool
  | [] => pat.isEmpty
  | c :: cs => listIsPrefix pat (c :: cs) || listIsInfix pat cs

/-- Substring containment, Python `pat in s` on strings (the empty pattern is
contained in every string). -/
def strContains (s pat : String) : Bool :=
  listIsInfix pat.toList s.toList

/-- Suffix test on character lists. -/
def listIsSuffix (pat s : List Char) : Bool :=
  listIsPrefix pat.reverse s.reverse

/-- Python `s.startswith(pre)`. -/
def strStarts (s pre : String) : Bool :=
  listIsPrefix pre.toList s.toList

/-- Python `s.endswith(suf)`. -/
def strEnds (s suf : String) : Bool :=
  listIsSuffix suf.toList s.toList

/-- Python `s.split(sep)` for a one-character separator: split at every
occurrence (the empty string splits to a single empty component). -/
def splitCharList (sep : Char) : List Char → List (List Char)
  | [] => [[]]
  | c :: rest =>
    match splitCharList sep rest with
    | [] => [[]]
    | g :: gs => if c == sep then [] :: g :: gs else (c :: g) :: gs

/-- Python `s.split(".")` as used on version strings. -/
def splitDots (s : String) : List String :=
  (splitCharList '.' s.toList).map (fun l => { data := l })

/-- Numeric value of a decimal digit list (most significant first). -/
def digitsVal : Nat → List Char → Nat
  | acc, [] => acc
  | acc, c :: cs => digitsVal (acc * 10 + (c.toNat - 48)) cs

/-- Digit test for a character list (non-empty, all decimal digits). -/
def allDigits : List Char → Bool
  | [] => false
  | [c] => c.isDigit
  | c :: cs => c.isDigit && allDigits cs

/-- Python membership `key in v` for a `str` key: key lookup on a `dict`,
element equality on a `list`, substring test on a `str`; `TypeError` on
`None`, `bool` and `int` (argument not iterable). -/
def pyContains (key : String) : Yaml → Except String Bool
  | .dict kvs => .ok (kvs.any (fun kv => kv.1 == key))
  | .list xs => .ok (xs.any (fun v => v.eqStr key))
  | .str s => .ok (strContains s key)
  | _ => .error "TypeError: argument is not iterable"

/-- Python subscript `v[key]` for a `str` key: `dict` lookup (`KeyError` when
the key is absent); `TypeError` for every other type (`list` and `str`
require integer indices). -/
def pyGetItem (v : Yaml) (key : String) : Except String Yaml :=
  match v with
  | .dict kvs =>
    match kvs.find? (fun kv => kv.1 == key) with
    | some kv => .ok kv.2
    | none => .error ("KeyError: " ++ key)
  | _ => .error "TypeError: value is not subscriptable by a string key"

/-- Python `v.items()`: defined on `dict` only; `AttributeError` otherwise. -/
def pyItems : Yaml → Except String (List (String × Yaml))
  | .dict kvs => .ok kvs
  | _ => .error "AttributeError: object has no attribute items"

/-- Python iteration `for x in v` (as used by `enumerate`): a `list` yields
its elements, a `str` yields its characters as one-character strings, a
`dict` yields its keys; `TypeError` on `None`, `bool` and `int`. -/
def pyEnumerate : Yaml → Except String (List Yaml)
  | .list xs => .ok xs
  | .str s => .ok (s.toList.map (fun c => .str (String.singleton c)))
  | .dict kvs => .ok (kvs.map (fun kv => .str kv.1))
  | _ => .error "TypeError: argument is not iterable"

/-- Python `repr(v)` of a loaded YAML value (used by `str()` on containers).
Models the CPython rendering: `None`, `True`/`False`, decimal integers,
single-quoted strings, bracketed lists and braced dicts. -/
def pyRepr : Yaml → String
  | .null => "None"
  | .bool true => "True"
  | .bool false => "False"
  | .int n => toString n
  | .str s => "\x27" ++ s ++ "\x27"
  | .list xs =>
    "[" ++ String.intercalate ", " (xs.attach.map (fun x => pyRepr x.1)) ++ "]"
  | .dict kvs =>
    "\x7b" ++
      String.intercalate ", "
        (kvs.attach.map (fun kv => "\x27" ++ kv.1.1 ++ "\x27: " ++ pyRepr kv.1.2)) ++
    "\x7d"
decreasing_by
  · have h1 : sizeOf x.1 < sizeOf xs := List.sizeOf_lt_of_mem x.2
    simp only [Yaml.list.sizeOf_spec]
    omega
  · have h1 : sizeOf kv.1 < sizeOf kvs := List.sizeOf_lt_of_mem kv.2
    have h2 : sizeOf kv.1.2 < sizeOf kv.1 := by
      obtain ⟨a, b⟩ := kv.1
      simp only [Prod.mk.sizeOf_spec]
      omega
    simp only [Yaml.dict.sizeOf_spec]
    omega

/-- Python `str(v)`: a `str` renders as its contents, everything else as its
`repr`. -/
def pyStr (v : Yaml) : String :=
  match v with
  | .str s => s
  | _ => pyRepr v

/-- Python `v == 0`: true for `int` `0` and for `False` (Python booleans are
integers); false for every other value, never an error. -/
def pyEqZero : Yaml → Bool
  | .int n => n == 0
  | .bool b => b == false
  | _ => false

/-- Python `v > 0`: defined for `int` and `bool` (where `True` is `1`);
`TypeError` for every other type. -/
def pyGtZero : Yaml → Except String Bool
  | .int n => .ok (decide (0 < n))
  | .bool b => .ok b
  | _ => .error "TypeError: comparison with int is not supported"

/-- Pod Security Standards policy levels, from `src/schema.py`
(`PolicyLevel`). -/
inductive PolicyLevel where
  | baseline
  | restricted
  | privileged
deriving DecidableEq

/-- String value of a policy level (`PolicyLevel.value` on the Python
`str`-enum). -/
def PolicyLevel.value : PolicyLevel → String
  | .baseline => "Baseline"
  | .restricted => "Restricted"
  | .privileged => "Privileged"

/-- The attributes of `schema.SecurityField` that the analyzer reads
(`field_name`, `field_path`, `policy_level`, `version_added`,
`deprecated_in`, `security_impact`); the purely documentary attributes
(description, examples, pitfalls, remediation steps, CVE references) do not
influence any analyzed behaviour and are not embedded. -/
structure SecurityField where
  field_name : String
  field_path : String
  policy_level : PolicyLevel
  version_added : Option String
  deprecated_in : Option String
  security_impact : String

/-- The static catalog from `src/security_data.py` (`get_security_fields`):
the ten registered fields, in source order, with their policy levels and
`security_impact` texts.  Note that `hostIPC` has no entry, although
`yaml_analyzer.py` extracts it and has a dispatch branch for it. -/
def get_security_fields : List SecurityField :=
  [ { field_name := "runAsNonRoot",
      field_path := "spec.securityContext.runAsNonRoot",
      policy_level := .baseline,
      version_added := some "1.0",
      deprecated_in := none,
      security_impact := "Running containers as non-root users significantly reduces the attack surface. If a container running as root is compromised, the attacker gains full access to the host system. Non-root containers limit the potential damage from container escapes." },
    { field_name := "allowPrivilegeEscalation",
      field_path := "spec.securityContext.allowPrivilegeEscalation",
      policy_level := .baseline,
      version_added := some "1.8",
      deprecated_in := none,
      security_impact := "When set to false, prevents privilege escalation attacks where a process can gain additional privileges through mechanisms like setuid binaries. This is essential for defense in depth." },
    { field_name := "privileged",
      field_path := "spec.containers[].securityContext.privileged",
      policy_level := .privileged,
      version_added := some "1.0",
      deprecated_in := none,
      security_impact := "Privileged containers have access to all Linux capabilities and host devices. This essentially gives the container root access to the host system, making it a major security risk." },
    { field_name := "readOnlyRootFilesystem",
      field_path := "spec.containers[].securityContext.readOnlyRootFilesystem",
      policy_level := .restricted,
      version_added := some "1.0",
      deprecated_in := none,
      security_impact := "A read-only root filesystem prevents attackers from writing malicious files, installing backdoors, or modifying system files. This is a key defense against container escape and persistence attacks." },
    { field_name := "runAsUser",
      field_path := "spec.securityContext.runAsUser",
      policy_level := .baseline,
      version_added := some "1.0",
      deprecated_in := none,
      security_impact := "Running as a specific non-root user limits the potential damage from container compromise. It prevents the container from accessing sensitive host files and reduces privilege escalation opportunities." },
    { field_name := "capabilities",
      field_path := "spec.containers[].securityContext.capabilities",
      policy_level := .restricted,
      version_added := some "1.0",
      deprecated_in := none,
      security_impact := "Linux capabilities provide fine-grained control over what privileged operations a container can perform. Dropping unnecessary capabilities reduces the attack surface and follows the principle of least privilege." },
    { field_name := "hostPID",
      field_path := "spec.hostPID",
      policy_level := .privileged,
      version_added := some "1.0",
      deprecated_in := none,
      security_impact := "When set to true, the container can see all processes on the host, including those from other containers and the host system. This can lead to information disclosure and potential privilege escalation attacks." },
    { field_name := "hostNetwork",
      field_path := "spec.hostNetwork",
      policy_level := .privileged,
      version_added := some "1.0",
      deprecated_in := none,
      security_impact := "When set to true, the pod can access all network interfaces on the host, potentially including internal networks and services. This can lead to network-based attacks and information disclosure." },
    { field_name := "seccompProfile",
      field_path := "spec.securityContext.seccompProfile",
      policy_level := .restricted,
      version_added := some "1.19",
      deprecated_in := none,
      security_impact := "Seccomp profiles restrict which system calls a container can make, significantly reducing the attack surface. The RuntimeDefault profile blocks dangerous system calls that could be used for privilege escalation." },
    { field_name := "apparmorProfile",
      field_path := "spec.securityContext.apparmorProfile",
      policy_level := .restricted,
      version_added := some "1.4",
      deprecated_in := none,
      security_impact := "AppArmor profiles restrict file access, network access, and other system resources. This provides an additional layer of security beyond standard Linux permissions and capabilities." } ]

/-- Lookup in the analyzer registry `self.security_fields` (a dict keyed by
`field_name`; names are unique, so the first match is the entry). -/
def lookupField (name : String) : Option SecurityField :=
  get_security_fields.find? (fun f => f.field_name == name)

/-- A per-field verdict dict as built by the `_analyze_*` rules of
`yaml_analyzer.py`.  The `policy_level` and `security_impact` keys are
absent from the unknown-field verdict, hence `Option`. -/
structure FieldVerdict where
  field_name : String
  value : Yaml
  status : String
  message : String
  recommendation : String
  policy_level : Option String
  security_impact : Option String

/-- An element of `PodSecurityAnalysis.analysis_results`: either the
`\x7b"error": msg\x7d` dict of a terminal result or a field verdict. -/
inductive AnalysisEntry where
  | errorEntry (msg : String)
  | verdict (v : FieldVerdict)

/-- Rule `_analyze_run_as_non_root` of `yaml_analyzer.py`. -/
def analyzeRunAsNonRoot (value : Yaml) (field : SecurityField) : FieldVerdict :=
  match value with
  | .bool true =>
    { field_name := "runAsNonRoot", value := value, status := "secure",
      message := "Container is configured to run as non-root",
      recommendation := "Good security practice",
      policy_level := some field.policy_level.value,
      security_impact := some field.security_impact }
  | .bool false =>
    { field_name := "runAsNonRoot", value := value, status := "warning",
      message := "Container can run as root user",
      recommendation := "Set to true for better security",
      policy_level := some field.policy_level.value,
      security_impact := some field.security_impact }
  | _ =>
    { field_name := "runAsNonRoot", value := value, status := "error",
      message := "runAsNonRoot should be explicitly set to true or false",
      recommendation := "Set runAsNonRoot: true for security",
      policy_level := some field.policy_level.value,
      security_impact := some field.security_impact }

/-- Rule `_analyze_allow_privilege_escalation` of `yaml_analyzer.py`. -/
def analyzeAllowPrivilegeEscalation (value : Yaml) (field : SecurityField) : FieldVerdict :=
  match value with
  | .bool false =>
    { field_name := "allowPrivilegeEscalation", value := value, status := "secure",
      message := "Privilege escalation is disabled",
      recommendation := "Good security practice",
      policy_level := some field.policy_level.value,
      security_impact := some field.security_impact }
  | .bool true =>
    { field_name := "allowPrivilegeEscalation", value := value, status := "warning",
      message := "Privilege escalation is allowed",
      recommendation := "Set to false for better security",
      policy_level := some field.policy_level.value,
      security_impact := some field.security_impact }
  | _ =>
    { field_name := "allowPrivilegeEscalation", value := value, status := "error",
      message := "allowPrivilegeEscalation should be explicitly set",
      recommendation := "Set allowPrivilegeEscalation: false",
      policy_level := some field.policy_level.value,
      security_impact := some field.security_impact }

/-- Rule `_analyze_privileged` of `yaml_analyzer.py`: `true` is critical,
`false` is secure, anything else is a warning. -/
def analyzePrivileged (value : Yaml) (field : SecurityField) : FieldVerdict :=
  match value with
  | .bool true =>
    { field_name := "privileged", value := value, status := "critical",
      message := "Container runs in privileged mode - EXTREMELY DANGEROUS",
      recommendation := "Remove privileged: true immediately",
      policy_level := some field.policy_level.value,
      security_impact := some field.security_impact }
  | .bool false =>
    { field_name := "privileged", value := value, status := "secure",
      message := "Container is not privileged",
      recommendation := "Good security practice",
      policy_level := some field.policy_level.value,
      security_impact := some field.security_impact }
  | _ =>
    { field_name := "privileged", value := value, status := "warning",
      message := "Privileged mode not explicitly disabled",
      recommendation := "Set privileged: false explicitly",
      policy_level := some field.policy_level.value,
      security_impact := some field.security_impact }

/-- Rule `_analyze_read_only_root_filesystem` of `yaml_analyzer.py`. -/
def analyzeReadOnlyRootFilesystem (value : Yaml) (field : SecurityField) : FieldVerdict :=
  match value with
  | .bool true =>
    { field_name := "readOnlyRootFilesystem", value := value, status := "secure",
      message := "Root filesystem is read-only",
      recommendation := "Good security practice",
      policy_level := some field.policy_level.value,
      security_impact := some field.security_impact }
  | .bool false =>
    { field_name := "readOnlyRootFilesystem", value := value, status := "warning",
      message := "Root filesystem is writable",
      recommendation := "Set to true for better security",
      policy_level := some field.policy_level.value,
      security_impact := some field.security_impact }
  | _ =>
    { field_name := "readOnlyRootFilesystem", value := value, status := "error",
      message := "readOnlyRootFilesystem should be explicitly set",
      recommendation := "Set readOnlyRootFilesystem: true",
      policy_level := some field.policy_level.value,
      security_impact := some field.security_impact }

/-- Rule `_analyze_run_as_user` of `yaml_analyzer.py`.  `value == 0` is
critical (this includes `False`, which equals `0` in Python); otherwise,
when the value is truthy, `value > 0` is evaluated (a `TypeError` for
non-numeric values) and a positive value is secure; every remaining case is
a warning. -/
def analyzeRunAsUser (value : Yaml) (field : SecurityField) : Except String FieldVerdict :=
  if pyEqZero value then
    .ok { field_name := "runAsUser", value := value, status := "critical",
          message := "Container runs as root user (UID 0)",
          recommendation := "Use a non-zero UID",
          policy_level := some field.policy_level.value,
          security_impact := some field.security_impact }
  else if pyTruthy value then do
    let gt ← pyGtZero value
    if gt then
      .ok { field_name := "runAsUser", value := value, status := "secure",
            message := "Container runs as non-root user (UID " ++ pyStr value ++ ")",
            recommendation := "Good security practice",
            policy_level := some field.policy_level.value,
            security_impact := some field.security_impact }
    else
      .ok { field_name := "runAsUser", value := value, status := "warning",
            message := "runAsUser should be explicitly set to a non-zero value",
            recommendation := "Set runAsUser to a non-zero value (e.g., 1000)",
            policy_level := some field.policy_level.value,
            security_impact := some field.security_impact }
  else
    .ok { field_name := "runAsUser", value := value, status := "warning",
          message := "runAsUser should be explicitly set to a non-zero value",
          recommendation := "Set runAsUser to a non-zero value (e.g., 1000)",
          policy_level := some field.policy_level.value,
          security_impact := some field.security_impact }

/-- Rule `_analyze_capabilities` of `yaml_analyzer.py`. -/
def analyzeCapabilities (value : Yaml) (field : SecurityField) : Except String FieldVerdict :=
  if !pyTruthy value then
    .ok { field_name := "capabilities", value := value, status := "warning",
          message := "Capabilities not explicitly configured",
          recommendation := "Drop ALL capabilities and add only required ones",
          policy_level := some field.policy_level.value,
          security_impact := some field.security_impact }
  else do
    let dropIn ← pyContains "drop" value
    let dropAll ←
      if dropIn then do
        let dv ← pyGetItem value "drop"
        pyContains "ALL" dv
      else
        pure false
    let addIn ← pyContains "add" value
    let added ←
      if addIn then pyGetItem value "add" else pure (Yaml.list [])
    if dropAll && !pyTruthy added then
      .ok { field_name := "capabilities", value := value, status := "secure",
            message := "All capabilities dropped, no additional capabilities added",
            recommendation := "Good security practice",
            policy_level := some field.policy_level.value,
            security_impact := some field.security_impact }
    else if dropAll && pyTruthy added then
      .ok { field_name := "capabilities", value := value, status := "secure",
            message := "All capabilities dropped, only specific capabilities added: " ++ pyStr added,
            recommendation := "Good security practice - review if all added capabilities are necessary",
            policy_level := some field.policy_level.value,
            security_impact := some field.security_impact }
    else
      .ok { field_name := "capabilities", value := value, status := "warning",
            message := "Not all capabilities are dropped",
            recommendation := "Drop ALL capabilities and add only required ones",
            policy_level := some field.policy_level.value,
            security_impact := some field.security_impact }

/-- Rule `_analyze_host_fields` of `yaml_analyzer.py` (for `hostPID`,
`hostIPC` and `hostNetwork`): `true` is critical, `false` is secure,
anything else is a warning. -/
def analyzeHostFields (field_name : String) (value : Yaml) (field : SecurityField) : FieldVerdict :=
  match value with
  | .bool true =>
    { field_name := field_name, value := value, status := "critical",
      message := field_name ++ " is enabled - DANGEROUS",
      recommendation := "Remove " ++ field_name ++ ": true",
      policy_level := some field.policy_level.value,
      security_impact := some field.security_impact }
  | .bool false =>
    { field_name := field_name, value := value, status := "secure",
      message := field_name ++ " is enabled",
      recommendation := "Good security practice",
      policy_level := some field.policy_level.value,
      security_impact := some field.security_impact }
  | _ =>
    { field_name := field_name, value := value, status := "warning",
      message := field_name ++ " should be explicitly set to false",
      recommendation := "Set " ++ field_name ++ ": false",
      policy_level := some field.policy_level.value,
      security_impact := some field.security_impact }

/-- Rule `_analyze_security_profiles` of `yaml_analyzer.py` (for
`seccompProfile` and `apparmorProfile`). -/
def analyzeSecurityProfiles (field_name : String) (value : Yaml) (field : SecurityField) : FieldVerdict :=
  let profile_type : Yaml :=
    match value with
    | .dict kvs =>
      if kvs.any (fun kv => kv.1 == "type") then
        match kvs.find? (fun kv => kv.1 == "type") with
        | some kv => kv.2
        | none => value
      else value
    | _ => value
  if profile_type.eqStr "RuntimeDefault" then
    { field_name := field_name, value := value, status := "secure",
      message := field_name ++ " is set to RuntimeDefault",
      recommendation := "Good security practice",
      policy_level := some field.policy_level.value,
      security_impact := some field.security_impact }
  else if profile_type.eqStr "Unconfined" then
    { field_name := field_name, value := value, status := "warning",
      message := field_name ++ " is set to Unconfined",
      recommendation := "Set " ++ field_name ++ " to RuntimeDefault",
      policy_level := some field.policy_level.value,
      security_impact := some field.security_impact }
  else
    { field_name := field_name, value := value, status := "warning",
      message := field_name ++ " should be set to RuntimeDefault",
      recommendation := "Set " ++ field_name ++ " to RuntimeDefault",
      policy_level := some field.policy_level.value,
      security_impact := some field.security_impact }

/-- Rule `_analyze_generic_field` of `yaml_analyzer.py` (fallback for
registered fields without a dedicated branch). -/
def analyzeGenericField (field_name : String) (value : Yaml) (field : SecurityField) : FieldVerdict :=
  { field_name := field_name, value := value, status := "info",
    message := "Field " ++ field_name ++ " is set to " ++ pyStr value,
    recommendation := "Review if this configuration is appropriate",
    policy_level := some field.policy_level.value,
    security_impact := some field.security_impact }

/-! Embedding of `src/crawler/version_manager.py`. -/

/-- Entry of `schema`-level version data (`KubernetesVersion` dataclass of
`version_manager.py`). -/
structure KubernetesVersion where
  version : String
  major : Int
  minor : Int
  patch : Int
  is_lts : Bool
  docs_url : String
  security_docs_url : String
  policy_type : String

/-- One element of the static `version_configs` table of
`VersionManager._initialize_versions`. -/
structure VersionConfig where
  version : String
  is_lts : Bool
  docs_url : String
  security_docs_url : String
  policy_type : String

/-- The static `version_configs` table of `version_manager.py`, in source
order. -/
def version_configs : List VersionConfig :=
  [ { version := "1.20", is_lts := false,
      docs_url := "https://kubernetes.io/docs/",
      security_docs_url := "https://kubernetes.io/docs/concepts/security/pod-security-policy/",
      policy_type := "PodSecurityPolicy" },
    { version := "1.21", is_lts := true,
      docs_url := "https://kubernetes.io/docs/",
      security_docs_url := "https://kubernetes.io/docs/concepts/security/pod-security-policy/",
      policy_type := "PodSecurityPolicy" },
    { version := "1.22", is_lts := false,
      docs_url := "https://kubernetes.io/docs/",
      security_docs_url := "https://kubernetes.io/docs/concepts/security/pod-security-standards/",
      policy_type := "PodSecurityStandardsAlpha" },
    { version := "1.23", is_lts := false,
      docs_url := "https://kubernetes.io/docs/",
      security_docs_url := "https://kubernetes.io/docs/concepts/security/pod-security-standards/",
      policy_type := "PodSecurityStandardsAlpha" },
    { version := "1.24", is_lts := true,
      docs_url := "https://kubernetes.io/docs/",
      security_docs_url := "https://kubernetes.io/docs/concepts/security/pod-security-standards/",
      policy_type := "PodSecurityStandardsStable" },
    { version := "1.25", is_lts := false,
      docs_url := "https://kubernetes.io/docs/",
      security_docs_url := "https://kubernetes.io/docs/concepts/security/pod-security-standards/",
      policy_type := "PodSecurityStandardsStable" },
    { version := "1.26", is_lts := false,
      docs_url := "https://kubernetes.io/docs/",
      security_docs_url := "https://kubernetes.io/docs/concepts/security/pod-security-standards/",
      policy_type := "PodSecurityStandardsStable" },
    { version := "1.27", is_lts := true,
      docs_url := "https://kubernetes.io/docs/",
      security_docs_url := "https://kubernetes.io/docs/concepts/security/pod-security-standards/",
      policy_type := "PodSecurityStandardsStable" },
    { version := "1.28", is_lts := false,
      docs_url := "https://kubernetes.io/docs/",
      security_docs_url := "https://kubernetes.io/docs/concepts/security/pod-security-standards/",
      policy_type := "PodSecurityStandardsStable" },
    { version := "1.29", is_lts := false,
      docs_url := "https://kubernetes.io/docs/",
      security_docs_url := "https://kubernetes.io/docs/concepts/security/pod-security-standards/",
      policy_type := "PodSecurityStandardsStable" } ]

/-- Python `int(s)` as applied to a version component: a non-empty string of
decimal digits parses to its value, anything else raises `ValueError` (the
sign/whitespace/underscore forms accepted by `int()` do not occur in
version strings). -/
def pyIntParse (s : String) : Except String Int :=
  if allDigits s.toList then .ok ((digitsVal 0 s.toList : Nat) : Int)
  else .error ("ValueError: invalid literal for int with base 10: " ++ s)

/-- Tail of the `_version_compare` loop once the first list is exhausted:
every remaining component of the second list is compared against `0`. -/
def cmpPadLeft : List Int → Int
  | [] => 0
  | y :: ys => if 0 < y then -1 else if y < 0 then 1 else cmpPadLeft ys

/-- The comparison loop of `_version_compare`: walk both component lists in
parallel, treating a missing component as `0`; the first numeric difference
decides. -/
def cmpParts : List Int → List Int → Int
  | [], ys => cmpPadLeft ys
  | x :: xs, [] =>
    if x < 0 then -1 else if 0 < x then 1 else cmpParts xs []
  | x :: xs, y :: ys =>
    if x < y then -1 else if y < x then 1 else cmpParts xs ys

/-- Method `_version_compare` of `yaml_analyzer.py`: split both versions on
dots, parse every component with `int()` (which may raise), then compare
numerically component by component with missing components read as `0`. -/
def version_compare (version1 version2 : String) : Except String Int := do
  let v1_parts ← (splitDots version1).mapM pyIntParse
  let v2_parts ← (splitDots version2).mapM pyIntParse
  .ok (cmpParts v1_parts v2_parts)

/-- Method `analyze_security_field` of `yaml_analyzer.py`: registry lookup
(unknown fields give an `unknown` verdict), the deprecation override, then
dispatch on the field name. -/
def analyze_security_field (field_name : String) (value : Yaml)
    (kubernetes_version : String) : Except String FieldVerdict :=
  match lookupField field_name with
  | none =>
    .ok { field_name := field_name, value := value, status := "unknown",
          message := "Unknown security field: " ++ field_name,
          recommendation := "Review if this field is necessary for your use case",
          policy_level := none, security_impact := none }
  | some field =>
    let dispatch : Except String FieldVerdict :=
      if field_name == "runAsNonRoot" then
        .ok (analyzeRunAsNonRoot value field)
      else if field_name == "allowPrivilegeEscalation" then
        .ok (analyzeAllowPrivilegeEscalation value field)
      else if field_name == "privileged" then
        .ok (analyzePrivileged value field)
      else if field_name == "readOnlyRootFilesystem" then
        .ok (analyzeReadOnlyRootFilesystem value field)
      else if field_name == "runAsUser" then
        analyzeRunAsUser value field
      else if field_name == "capabilities" then
        analyzeCapabilities value field
      else if field_name == "hostPID" || field_name == "hostIPC" || field_name == "hostNetwork" then
        .ok (analyzeHostFields field_name value field)
      else if field_name == "seccompProfile" || field_name == "apparmorProfile" then
        .ok (analyzeSecurityProfiles field_name value field)
      else
        .ok (analyzeGenericField field_name value field)
    match field.deprecated_in with
    | none => dispatch
    | some dep =>
      if dep.isEmpty then dispatch
      else do
        let c ← version_compare kubernetes_version dep
        if 0 ≤ c then
          .ok { field_name := field_name, value := value, status := "deprecated",
                message := "Field is deprecated in Kubernetes " ++ dep,
                recommendation := "Consider using alternative approaches",
                policy_level := some field.policy_level.value,
                security_impact := some field.security_impact }
        else dispatch

/-- The container loop of `extract_security_fields`: for each container (in
order, with its index) that contains a `securityContext`, record it under
the key `container_<i>_security_context`. -/
def extractContainers : List Yaml → Nat → Except String (List (String × Yaml))
  | [], _ => .ok []
  | c :: rest, i => do
    let hasCtx ← pyContains "securityContext" c
    let here ←
      if hasCtx then do
        let v ← pyGetItem c "securityContext"
        pure [("container_" ++ toString i ++ "_security_context", v)]
      else pure []
    let tail ← extractContainers rest (i + 1)
    .ok (here ++ tail)

/-- The host-flag loop of `extract_security_fields`: record each of the
listed pod-level fields that is present in the spec. -/
def extractHostFields (pod_spec : Yaml) : List String → Except String (List (String × Yaml))
  | [] => .ok []
  | f :: rest => do
    let hasF ← pyContains f pod_spec
    let here ←
      if hasF then do
        let v ← pyGetItem pod_spec f
        pure [(f, v)]
      else pure []
    let tail ← extractHostFields pod_spec rest
    .ok (here ++ tail)

/-- Method `extract_security_fields` of `yaml_analyzer.py`: the pod-level
`securityContext` (under key `pod_security_context`), each container's
`securityContext` (indexed), then the pod-level host flags `hostPID`,
`hostIPC`, `hostNetwork`, in insertion order. -/
def extract_security_fields (pod_spec : Yaml) : Except String (List (String × Yaml)) := do
  let ctxPart ← do
    let c ← pyContains "securityContext" pod_spec
    if c then do
      let v ← pyGetItem pod_spec "securityContext"
      pure [("pod_security_context", v)]
    else pure []
  let contPart ← do
    let c ← pyContains "containers" pod_spec
    if c then do
      let cs ← pyGetItem pod_spec "containers"
      let items ← pyEnumerate cs
      extractContainers items 0
    else pure []
  let hostPart ← extractHostFields pod_spec ["hostPID", "hostIPC", "hostNetwork"]
  .ok (ctxPart ++ contPart ++ hostPart)

/-- Critical-issue line appended by the analysis loop for a verdict with
status `critical` (labelled with the analyzed field name). -/
def criticalOf (name : String) (r : FieldVerdict) : List String :=
  if r.status == "critical" then [name ++ ": " ++ r.message] else []

/-- Warning line appended by the analysis loop for a verdict with status
`warning`. -/
def warningOf (name : String) (r : FieldVerdict) : List String :=
  if r.status == "warning" then [name ++ ": " ++ r.message] else []

/-- Inner loop of `analyze_pod_yaml` over the entries of one container's
`securityContext`; returns, in iteration order, the verdicts and the
accumulated critical issues, warnings and recommendations. -/
def processCtxItems (kubernetes_version : String) :
    List (String × Yaml) →
    Except String (List FieldVerdict × List String × List String × List String)
  | [] => .ok ([], [], [], [])
  | (n, v) :: rest => do
    let r ← analyze_security_field n v kubernetes_version
    let (rs, cs, ws, recs) ← processCtxItems kubernetes_version rest
    .ok (r :: rs, criticalOf n r ++ cs, warningOf n r ++ ws, r.recommendation :: recs)

/-- Main loop of `analyze_pod_yaml` over the extracted security fields:
keys of the form `container_<i>_security_context` are expanded entry by
entry via `.items()`; every other key is analyzed as a pod-level field. -/
def processFields (kubernetes_version : String) :
    List (String × Yaml) →
    Except String (List FieldVerdict × List String × List String × List String)
  | [] => .ok ([], [], [], [])
  | (name, value) :: rest => do
    let (rs, cs, ws, recs) ←
      if strStarts name "container_" && strEnds name "_security_context" then do
        let items ← pyItems value
        processCtxItems kubernetes_version items
      else do
        let r ← analyze_security_field name value kubernetes_version
        .ok ([r], criticalOf name r, warningOf name r, [r.recommendation])
    let (rs2, cs2, ws2, recs2) ← processFields kubernetes_version rest
    .ok (rs ++ rs2, cs ++ cs2, ws ++ ws2, recs ++ recs2)

/-- Score computation of `analyze_pod_yaml`: the share of `secure` verdicts
times 100, and `0.0` when there are no verdicts. -/
def overallScore (results : List FieldVerdict) : Rat :=
  let total_fields := results.length
  let secure_fields := results.countP (fun r => r.status == "secure")
  if 0 < total_fields then (secure_fields : Rat) / (total_fields : Rat) * 100 else 0

/-- Baseline compliance of `analyze_pod_yaml`: no verdict has status
`critical`. -/
def baselineCompliant (results : List FieldVerdict) : Bool :=
  !(results.any (fun r => r.status == "critical"))

/-- Restricted compliance of `analyze_pod_yaml`: no verdict has status
`critical` or `warning`. -/
def restrictedCompliant (results : List FieldVerdict) : Bool :=
  !(results.any (fun r => r.status == "critical" || r.status == "warning"))

/-- The `policy_compliance` dict of an analysis (its two `PolicyLevel`
keys). -/
structure PolicyCompliance where
  baseline : Bool
  restricted : Bool

/-- Result schema `schema.PodSecurityAnalysis` (the `fixed_yaml` attribute,
never set by the analyzer, is omitted). -/
structure PodSecurityAnalysis where
  pod_yaml : String
  kubernetes_version : String
  analysis_results : List AnalysisEntry
  overall_score : Rat
  policy_compliance : PolicyCompliance
  recommendations : List String
  critical_issues : List String
  warnings : List String

/-- Method `analyze_pod_yaml` of `yaml_analyzer.py`.

The `yaml.safe_load` library call on `yaml_content` is external; its outcome
is passed in as `loaded` (`Except.error` when the YAML is malformed, in which
case `parse_yaml` raises `ValueError` and the analyzer returns its terminal
invalid-format result).  The Python expression `list(set(recommendations))`
removes duplicates in an order fixed by the interpreter's string hashing for
the lifetime of the process; that realization is passed in as `setList`.
A returned `Except.error` models a Python exception escaping the method
(nothing in the source catches the `TypeError` of `"spec" not in pod_data`
on a non-container document). -/
def analyze_pod_yaml (setList : List String → List String)
    (yaml_content : String) (loaded : Except String Yaml)
    (kubernetes_version : String) : Except String PodSecurityAnalysis :=
  match loaded with
  | .error e =>
    .ok { pod_yaml := yaml_content,
          kubernetes_version := kubernetes_version,
          analysis_results := [.errorEntry ("Invalid YAML format: " ++ e)],
          overall_score := 0,
          policy_compliance := { baseline := false, restricted := false },
          recommendations := ["Fix YAML syntax errors"],
          critical_issues := ["Invalid YAML format"],
          warnings := [] }
  | .ok pod_data => do
    let hasSpec ← pyContains "spec" pod_data
    if !hasSpec then
      .ok { pod_yaml := yaml_content,
            kubernetes_version := kubernetes_version,
            analysis_results := [.errorEntry "No spec found in Pod"],
            overall_score := 0,
            policy_compliance := { baseline := false, restricted := false },
            recommendations := ["Add spec section to Pod"],
            critical_issues := ["Missing spec section"],
            warnings := [] }
    else do
      let pod_spec ← pyGetItem pod_data "spec"
      let security_fields ← extract_security_fields pod_spec
      let (results, critical_issues, warnings, recommendations) ←
        processFields kubernetes_version security_fields
      .ok { pod_yaml := yaml_content,
            kubernetes_version := kubernetes_version,
            analysis_results := results.map .verdict,
            overall_score := overallScore results,
            policy_compliance :=
              { baseline := baselineCompliant results,
                restricted := restrictedCompliant results },
            recommendations := setList recommendations,
            critical_issues := critical_issues,
            warnings := warnings }

/-- Body of `VersionManager._initialize_versions` for one config entry:
`major, minor = map(int, version_str.split("."))` (an error for anything but
exactly two integer components), `patch = 0`. -/
def initVersionEntry (c : VersionConfig) : Except String (String × KubernetesVersion) :=
  match (splitDots c.version).mapM pyIntParse with
  | .ok [major, minor] =>
    .ok (c.version,
      { version := c.version, major := major, minor := minor, patch := 0,
        is_lts := c.is_lts, docs_url := c.docs_url,
        security_docs_url := c.security_docs_url, policy_type := c.policy_type })
  | .ok _ => .error "ValueError: cannot unpack version components"
  | .error e => .error e

/-- Method `VersionManager._initialize_versions`: the versions dict built
from the static table (on this table, initialization never fails; see
`initialize_versions_ok`). -/
def _initialize_versions : Except String (List (String × KubernetesVersion)) :=
  version_configs.mapM initVersionEntry

/-- The `self.versions` dict of the process-wide `VersionManager` instance
(initialization succeeds on the static table, so the empty fallback of this
definition is never taken; `initialize_versions_ok` proves it). -/
def versionsDict : List (String × KubernetesVersion) :=
  match _initialize_versions with
  | .ok t => t
  | .error _ => []

/-- Method `VersionManager.get_version_info`: dict `.get`, `None` when the
version is not registered. -/
def get_version_info (version : String) : Option KubernetesVersion :=
  (versionsDict.find? (fun kv => kv.1 == version)).map (fun kv => kv.2)

/-- Method `VersionManager.get_policy_type_for_version`: the registered
policy type, with the fixed fallback `PodSecurityStandardsStable` for
unregistered versions. -/
def get_policy_type_for_version (version : String) : String :=
  match get_version_info version with
  | some vi => vi.policy_type
  | none => "PodSecurityStandardsStable"

/-! Embedding of `src/versioned_vector_store.py` (the search path).

The vector similarity backend (`chromadb`) is external; a collection is
modelled as the backend's behaviour on a query: for each query string it
either raises (`Except.error`) or yields the stored chunks with the
distances produced by the embedding space for that query.  `chromaQuery`
models the documented contract of `collection.query`: the metadata filter
is applied, then the `n_results` nearest (ascending distance) chunks are
returned. -/

/-- A stored chunk together with its filterable metadata and the distance
the backend reports for the current query. -/
structure StoredChunk where
  id : String
  content : String
  policy_level : Option String
  field_name : Option String
  distance : Rat

/-- A backend collection, modelled by its response to each query text. -/
def Collection : Type := String → Except String (List StoredChunk)

/-- Metadata lookup used by `where` filters. -/
def metaLookup (d : StoredChunk) (key : String) : Option String :=
  if key == "policy_level" then d.policy_level
  else if key == "field_name" then d.field_name
  else none

/-- A chunk satisfies a `where` filter when every key-value pair matches its
metadata (the empty filter, passed as `None`, keeps everything). -/
def matchesWhere (flt : List (String × String)) (d : StoredChunk) : Bool :=
  flt.all (fun kv => metaLookup d kv.1 == some kv.2)

/-- Ascending-distance comparison used for ranking. -/
def byDist (a b : StoredChunk) : Bool :=
  decide (a.distance ≤ b.distance)

/-- The documented contract of `collection.query(query_texts=[q],
n_results=n, where=flt)`: apply the metadata filter, rank by ascending
distance, return at most `n` chunks; a backend failure raises. -/
def chromaQuery (col : Collection) (query : String) (n_results : Nat)
    (flt : List (String × String)) : Except String (List StoredChunk) :=
  (col query).map (fun docs => ((docs.filter (matchesWhere flt)).mergeSort byDist).take n_results)

/-- The `where_filter` dict built by `_search_collection`: a `policy_level`
entry when a policy level is given (enum members are always truthy) and a
`field_name` entry when a non-empty field name is given. -/
def buildWhereFilter (policy_level : Option PolicyLevel) (field_name : Option String) :
    List (String × String) :=
  (match policy_level with
   | some pl => [("policy_level", pl.value)]
   | none => []) ++
  (match field_name with
   | some fn => if fn.isEmpty then [] else [("field_name", fn)]
   | none => [])

/-- A formatted search result as assembled by `_search_collection`. -/
structure SearchResult where
  id : String
  content : String
  metadata : StoredChunk
  distance : Rat
  collection : String

/-- Method `_search_collection` of `versioned_vector_store.py`: query one
collection with the filter; any exception from the backend is caught and the
partition contributes the empty list. -/
def _search_collection (col : Collection) (colName : String) (query : String)
    (n_results : Nat) (policy_level : Option PolicyLevel)
    (field_name : Option String) : List SearchResult :=
  match chromaQuery col query n_results (buildWhereFilter policy_level field_name) with
  | .error _ => []
  | .ok docs =>
    docs.map (fun d =>
      { id := d.id, content := d.content, metadata := d,
        distance := d.distance, collection := colName })

/-- The in-memory store: the `common` and `docs` collections plus the
version-specific collections created so far (`self.version_collections`). -/
structure VectorStore where
  common : Collection
  docs : Collection
  versionColls : String → Option Collection

/-- Name of a version-specific collection. -/
def versionCollectionName (version : String) : String :=
  "kubernetes_security_v" ++ version.replace "." "_"

/-- Method `get_version_collection`: an existing collection, or the freshly
created (hence empty, never-failing) one for a version seen for the first
time. -/
def get_version_collection (store : VectorStore) (version : String) : Collection :=
  match store.versionColls version with
  | some c => c
  | none => fun _ => .ok []

/-- Method `search` of `versioned_vector_store.py`: up to three sub-queries
(common when `include_common`, the version collection when a truthy version
is given, docs when `include_docs`), each through `_search_collection` with
the same filter and cap, concatenated, sorted ascending by distance and
truncated to `n_results * 2`. -/
def search (store : VectorStore) (query : String) (version : Option String)
    (n_results : Nat) (policy_level : Option PolicyLevel)
    (field_name : Option String) (include_common include_docs : Bool) :
    List SearchResult :=
  let commonPart :=
    if include_common then
      _search_collection store.common "kubernetes_security_common" query
        n_results policy_level field_name
    else []
  let versionPart :=
    match version with
    | some v =>
      if v.isEmpty then []
      else
        _search_collection (get_version_collection store v)
          (versionCollectionName v) query n_results policy_level field_name
    | none => []
  let docsPart :=
    if include_docs then
      _search_collection store.docs "kubernetes_docs" query
        n_results policy_level field_name
    else []
  let all_results := commonPart ++ versionPart ++ docsPart
  (all_results.mergeSort (fun a b => decide (a.distance ≤ b.distance))).take (n_results * 2)

/-! Derived readers of analysis results, definitions restating the
specification's own wording (for refinement statements), and concrete
sample inputs used by witnesses. -/

/-- Status of an analysis-result entry, when it is a field verdict. -/
def entryStatus : AnalysisEntry → Option String
  | .verdict v => some v.status
  | .errorEntry _ => none

/-- The statuses of the field verdicts of an analysis, in order. -/
def verdictStatuses (a : PodSecurityAnalysis) : List String :=
  a.analysis_results.filterMap entryStatus

/-- Whether an analysis-result entry is a verdict for the named field. -/
def entryIsField (name : String) : AnalysisEntry → Bool
  | .verdict v => v.field_name == name
  | .errorEntry _ => false

/-- Score stated by the specification: the number of verdicts with status
`secure` over the total number of verdicts, times 100, and 0 when there are
no verdicts. -/
def specScore (statuses : List String) : Rat :=
  if statuses.length = 0 then 0
  else ((statuses.countP (fun s => s == "secure") : Rat) / (statuses.length : Rat)) * 100

/-- Numeric reading of a version string stated by the specification:
`(major, minor, patch)` with a missing patch component read as `0`. -/
def numericTriple (v : String) : Int × Int × Int :=
  match (splitDots v).mapM pyIntParse with
  | .ok [a, b] => (a, b, 0)
  | .ok [a, b, c] => (a, b, c)
  | _ => (0, 0, 0)

/-- Numeric component-by-component comparison of two version triples, as the
specification describes version ordering. -/
def tripleCmp : Int × Int × Int → Int × Int × Int → Int
  | (a, b, c), (d, e, f) =>
    if a < d then -1 else if d < a then 1
    else if b < e then -1 else if e < b then 1
    else if c < f then -1 else if f < c then 1 else 0

/-- Well-formed version strings in the sense of the claim: of the form
`major.minor` with an optional `patch` component, every component a decimal
number. -/
def wfVersion (v : String) : Prop :=
  ∃ l, (splitDots v).mapM pyIntParse = .ok l ∧ (l.length = 2 ∨ l.length = 3)

/-- The up-to-three sub-query results described by the specification for
`search`: common partition when included, the requested version's partition
when a version is given, docs partition when included — each one capped at
`n_results` and filtered by the same metadata filter. -/
def specSubQueries (store : VectorStore) (query : String) (version : Option String)
    (n_results : Nat) (policy_level : Option PolicyLevel)
    (field_name : Option String) (include_common include_docs : Bool) :
    List (List SearchResult) :=
  [ (if include_common then
      _search_collection store.common "kubernetes_security_common" query
        n_results policy_level field_name
    else []),
    (match version with
     | some v =>
       if v.isEmpty then []
       else
         _search_collection (get_version_collection store v)
           (versionCollectionName v) query n_results policy_level field_name
     | none => []),
    (if include_docs then
      _search_collection store.docs "kubernetes_docs" query
        n_results policy_level field_name
    else []) ]

/-- The merge described by the specification: concatenate the sub-query
results, sort ascending by distance, truncate to `2 × n_results`. -/
def search_specified (store : VectorStore) (query : String) (version : Option String)
    (n_results : Nat) (policy_level : Option PolicyLevel)
    (field_name : Option String) (include_common include_docs : Bool) :
    List SearchResult :=
  (((specSubQueries store query version n_results policy_level field_name
        include_common include_docs).flatten).mergeSort
      (fun a b => decide (a.distance ≤ b.distance))).take (2 * n_results)

/-- A fixed realization of the per-process `list(set(·))` iteration order,
used to instantiate witnesses. -/
def anyOrder : List String → List String := fun xs => xs

/-- Parsed form of a pod whose container security context sets
`privileged: false` and nothing else — in particular `runAsUser` is absent. -/
def podNoRunAsUser : Yaml :=
  .dict [("spec", .dict [("containers", .list
    [ .dict [("securityContext", .dict [("privileged", .bool false)])] ])])]

/-- The YAML text corresponding to `podNoRunAsUser`. -/
def podNoRunAsUserText : String :=
  "spec:\n  containers:\n  - securityContext:\n      privileged: false\n"

/-- Parsed form of a pod that enables `hostIPC` at the pod level. -/
def podHostIPC : Yaml :=
  .dict [("spec", .dict [("hostIPC", .bool true)])]

/-- Parsed form of a pod whose single container runs as UID 1000 (an
all-secure analysis). -/
def podSecure : Yaml :=
  .dict [("spec", .dict [("containers", .list
    [ .dict [("securityContext", .dict [("runAsUser", .int 1000)])] ])])]

/-- The YAML text corresponding to `podSecure`. -/
def podSecureText : String :=
  "spec:\n  containers:\n  - securityContext:\n      runAsUser: 1000\n"

/-- A sample stored chunk for search witnesses. -/
def wChunk : StoredChunk :=
  { id := "c1", content := "hostPID guidance", policy_level := some "Baseline",
    field_name := none, distance := 1 }

/-- A sample store: one chunk in the common collection, a failing docs
collection, and no version collections created yet. -/
def wStore : VectorStore :=
  { common := fun _ => .ok [wChunk],
    docs := fun _ => .error "connection refused",
    versionColls := fun _ => none }

/-! Helper lemmas. -/

/-- Bind on a successful `Except` computation. -/
theorem except_bind_ok {α β : Type} (a : α) (f : α → Except String β) :
    (Except.ok a : Except String α) >>= f = f a := rfl

/-- Bind on a failed `Except` computation. -/
theorem except_bind_error {α β : Type} (e : String) (f : α → Except String β) :
    (Except.error e : Except String α) >>= f = Except.error e := rfl

/-- Initialization of the version registry succeeds on the static table and
yields exactly the dict used by lookups. -/
theorem initVersions_ok : _initialize_versions = .ok versionsDict := by
  rfl

/-- Statuses read back from a verdict list wrapped as analysis entries. -/
theorem filterMap_entryStatus (rs : List FieldVerdict) :
    (rs.map AnalysisEntry.verdict).filterMap entryStatus
      = rs.map (fun r => r.status) := by
  induction rs with
  | nil => rfl
  | cons r rs ih => simp [entryStatus, ih]

/-- The source's score computation agrees with the specification's formula
on the verdicts' statuses. -/
theorem overallScore_eq_specScore (rs : List FieldVerdict) :
    overallScore rs = specScore (rs.map (fun r => r.status)) := by
  have hc : (rs.map (fun r => r.status)).countP (fun s => s == "secure")
      = rs.countP (fun r => r.status == "secure") := by
    rw [List.countP_map]
    rfl
  unfold overallScore specScore
  rw [List.length_map, hc]
  rcases rs with _ | ⟨r, rs⟩
  · rfl
  · simp

/-- Baseline compliance holds exactly when no verdict status is
`critical`. -/
theorem baselineCompliant_iff (rs : List FieldVerdict) :
    baselineCompliant rs = true
      ↔ ∀ s ∈ rs.map (fun r => r.status), s ≠ "critical" := by
  simp [baselineCompliant, List.any_eq_false]

/-- Restricted compliance holds exactly when no verdict status is
`critical` or `warning`. -/
theorem restrictedCompliant_iff (rs : List FieldVerdict) :
    restrictedCompliant rs = true
      ↔ ∀ s ∈ rs.map (fun r => r.status), s ≠ "critical" ∧ s ≠ "warning" := by
  simp [restrictedCompliant, List.any_eq_false, not_or]

/-- Restricted compliance rejects a superset of what baseline rejects. -/
theorem restricted_imp_baseline (rs : List FieldVerdict) :
    restrictedCompliant rs = true → baselineCompliant rs = true := by
  simp only [restrictedCompliant, baselineCompliant, Bool.not_eq_true',
    List.any_eq_false]
  intro h r hr hc
  exact h r hr (by simp [hc])

/-! Claim theorems. -/

/-- C1, counterexample: the claim says `analyze_pod_yaml` never propagates
an exception for any input string, but the empty input string is valid YAML
that `yaml.safe_load` parses to `None`, and the test `"spec" not in pod_data`
then raises an uncaught `TypeError` that escapes `analyze_pod_yaml`. -/
theorem C1_counterexample_null_document :
    analyze_pod_yaml anyOrder "" (.ok .null) "1.24"
      = .error "TypeError: argument is not iterable" := rfl

/-- C1, amended: when the YAML is malformed (`yaml.safe_load` raises),
`analyze_pod_yaml` returns exactly the terminal invalid-format analysis —
score 0, both compliance flags false, critical issues
`["Invalid YAML format"]`, no per-field verdicts — and when the parsed
document supports the membership test and has no `spec` entry it returns
exactly the terminal missing-spec analysis; but a document for which the
membership test itself is a `TypeError` (`None`, a boolean or a number)
makes the exception escape, as the counterexample shows. -/
theorem C1_amended_terminal_results (setList : List String → List String)
    (y v e : String) (d : Yaml) :
    analyze_pod_yaml setList y (.error e) v = .ok
      { pod_yaml := y, kubernetes_version := v,
        analysis_results := [.errorEntry ("Invalid YAML format: " ++ e)],
        overall_score := 0,
        policy_compliance := { baseline := false, restricted := false },
        recommendations := ["Fix YAML syntax errors"],
        critical_issues := ["Invalid YAML format"],
        warnings := [] }
    ∧ (pyContains "spec" d = .ok false →
        analyze_pod_yaml setList y (.ok d) v = .ok
          { pod_yaml := y, kubernetes_version := v,
            analysis_results := [.errorEntry "No spec found in Pod"],
            overall_score := 0,
            policy_compliance := { baseline := false, restricted := false },
            recommendations := ["Add spec section to Pod"],
            critical_issues := ["Missing spec section"],
            warnings := [] }) := by
  refine ⟨rfl, fun h => ?_⟩
  simp only [analyze_pod_yaml, h, except_bind_ok]
  rfl

/-- Witness for `C1_amended_terminal_results` at a malformed input and at a
parsed mapping without a `spec` key. -/
theorem C1_amended_terminal_results_witness :
    analyze_pod_yaml anyOrder "x" (.error "boom") "1.24" = .ok
      { pod_yaml := "x", kubernetes_version := "1.24",
        analysis_results := [.errorEntry "Invalid YAML format: boom"],
        overall_score := 0,
        policy_compliance := { baseline := false, restricted := false },
        recommendations := ["Fix YAML syntax errors"],
        critical_issues := ["Invalid YAML format"],
        warnings := [] }
    ∧ analyze_pod_yaml anyOrder "x" (.ok (.dict [("kind", .str "Pod")])) "1.24" = .ok
      { pod_yaml := "x", kubernetes_version := "1.24",
        analysis_results := [.errorEntry "No spec found in Pod"],
        overall_score := 0,
        policy_compliance := { baseline := false, restricted := false },
        recommendations := ["Add spec section to Pod"],
        critical_issues := ["Missing spec section"],
        warnings := [] } :=
  ⟨(C1_amended_terminal_results anyOrder "x" "1.24" "boom" (.dict [("kind", .str "Pod")])).1,
   (C1_amended_terminal_results anyOrder "x" "1.24" "boom" (.dict [("kind", .str "Pod")])).2 rfl⟩

/-- C3, code behaviour at the failing input: the catalog of
`get_security_fields` has no `hostIPC` entry, so `hostIPC: true` produces an
`unknown` verdict — not the `critical` verdict the claim states — both at
the rule level and through the full analysis (where it raises no critical
issue); the three catalogued fields of the claim behave as stated. -/
theorem C3_hostIPC_yields_unknown :
    analyze_security_field "hostIPC" (.bool true) "1.24" = .ok
      { field_name := "hostIPC", value := .bool true, status := "unknown",
        message := "Unknown security field: hostIPC",
        recommendation := "Review if this field is necessary for your use case",
        policy_level := none, security_impact := none }
    ∧ Except.map (fun a => (verdictStatuses a, a.critical_issues))
        (analyze_pod_yaml anyOrder "spec:\n  hostIPC: true\n" (.ok podHostIPC) "1.24")
        = .ok (["unknown"], [])
    ∧ Except.map (fun r => r.status) (analyze_security_field "hostIPC" (.bool false) "1.24") = .ok "unknown"
    ∧ Except.map (fun r => r.status) (analyze_security_field "privileged" (.bool true) "1.24") = .ok "critical"
    ∧ Except.map (fun r => r.status) (analyze_security_field "privileged" (.bool false) "1.24") = .ok "secure"
    ∧ Except.map (fun r => r.status) (analyze_security_field "hostPID" (.bool true) "1.24") = .ok "critical"
    ∧ Except.map (fun r => r.status) (analyze_security_field "hostPID" (.bool false) "1.24") = .ok "secure"
    ∧ Except.map (fun r => r.status) (analyze_security_field "hostNetwork" (.bool true) "1.24") = .ok "critical"
    ∧ Except.map (fun r => r.status) (analyze_security_field "hostNetwork" (.bool false) "1.24") = .ok "secure" :=
  ⟨rfl, rfl, rfl, rfl, rfl, rfl, rfl, rfl, rfl⟩

/-- C4, counterexample: the claim says a manifest whose security context
lacks `runAsUser` yields a `warning` verdict for `runAsUser`; on a pod whose
container security context sets only `privileged: false`, the analysis
contains no `runAsUser` verdict at all (only the one `privileged`
verdict). -/
theorem C4_counterexample_absent_runAsUser :
    Except.map (fun a => (a.analysis_results.any (entryIsField "runAsUser"),
        a.analysis_results.length))
      (analyze_pod_yaml anyOrder podNoRunAsUserText (.ok podNoRunAsUser) "1.24")
      = .ok (false, 1) := rfl

/-- Dispatch of `analyze_security_field` for `runAsUser` reaches the
`_analyze_run_as_user` rule with the catalog entry. -/
theorem asf_runAsUser (value : Yaml) (v : String) :
    analyze_security_field "runAsUser" value v = analyzeRunAsUser value
      { field_name := "runAsUser",
        field_path := "spec.securityContext.runAsUser",
        policy_level := .baseline,
        version_added := some "1.0",
        deprecated_in := none,
        security_impact := "Running as a specific non-root user limits the potential damage from container compromise. It prevents the container from accessing sensitive host files and reduces privilege escalation opportunities." } := rfl

/-- C4, amended: a `runAsUser` value of `0` yields a `critical` verdict, any
positive integer yields `secure`, and any other integer (present but
non-positive) yields `warning`; when `runAsUser` is absent from the security
context, no `runAsUser` verdict is produced at all (contrary to the original
claim, there is no `warning` verdict for it): on the sample pod the analysis
has exactly one verdict and it is not for `runAsUser`. -/
theorem C4_amended_runAsUser_statuses (n : Int) (v : String) :
    Except.map (fun r => r.status) (analyze_security_field "runAsUser" (.int n) v)
      = .ok (if n = 0 then "critical" else if 0 < n then "secure" else "warning")
    ∧ Except.map (fun a => (a.analysis_results.any (entryIsField "runAsUser"),
        a.analysis_results.length))
      (analyze_pod_yaml anyOrder podNoRunAsUserText (.ok podNoRunAsUser) "1.24")
      = .ok (false, 1) := by
  refine ⟨?_, rfl⟩
  rw [asf_runAsUser]
  by_cases h0 : n = 0
  · subst h0
    rfl
  · by_cases hp : 0 < n
    · simp [analyzeRunAsUser, pyEqZero, pyTruthy, pyGtZero, h0, hp,
        except_bind_ok, Except.map]
    · simp [analyzeRunAsUser, pyEqZero, pyTruthy, pyGtZero, h0, hp,
        except_bind_ok, Except.map]

/-- Witness for `C4_amended_runAsUser_statuses` at the value 1000. -/
theorem C4_amended_runAsUser_statuses_witness :
    Except.map (fun r => r.status)
        (analyze_security_field "runAsUser" (.int 1000) "1.24")
      = .ok (if (1000 : Int) = 0 then "critical"
             else if 0 < (1000 : Int) then "secure" else "warning")
    ∧ Except.map (fun a => (a.analysis_results.any (entryIsField "runAsUser"),
        a.analysis_results.length))
      (analyze_pod_yaml anyOrder podNoRunAsUserText (.ok podNoRunAsUser) "1.24")
      = .ok (false, 1) :=
  C4_amended_runAsUser_statuses 1000 "1.24"

/-- C6: the policy regime per version — `PodSecurityPolicy` for 1.20 and
1.21, `PodSecurityStandardsAlpha` for 1.22 and 1.23,
`PodSecurityStandardsStable` for every registered version from 1.24 up, and
the fixed fallback `PodSecurityStandardsStable` for any version not in the
registry (such as "1.30"); the lookup is total and registry initialization
succeeds, so no exception is possible. -/
theorem C6_policy_type_for_version :
    get_policy_type_for_version "1.20" = "PodSecurityPolicy"
    ∧ get_policy_type_for_version "1.21" = "PodSecurityPolicy"
    ∧ get_policy_type_for_version "1.22" = "PodSecurityStandardsAlpha"
    ∧ get_policy_type_for_version "1.23" = "PodSecurityStandardsAlpha"
    ∧ (∀ v ∈ ["1.24", "1.25", "1.26", "1.27", "1.28", "1.29"],
        get_policy_type_for_version v = "PodSecurityStandardsStable")
    ∧ (∀ v, get_version_info v = none →
        get_policy_type_for_version v = "PodSecurityStandardsStable")
    ∧ get_policy_type_for_version "1.30" = "PodSecurityStandardsStable"
    ∧ _initialize_versions = .ok versionsDict := by
  refine ⟨rfl, rfl, rfl, rfl, ?_, ?_, rfl, by rfl⟩
  · intro v hv
    fin_cases hv <;> rfl
  · intro v hv
    simp [get_policy_type_for_version, hv]

/-- Witness for `C6_policy_type_for_version` at the registered version
"1.24" and the unregistered version "1.30". -/
theorem C6_policy_type_for_version_witness :
    ("1.24" ∈ ["1.24", "1.25", "1.26", "1.27", "1.28", "1.29"]
      ∧ get_policy_type_for_version "1.24" = "PodSecurityStandardsStable")
    ∧ (get_version_info "1.30" = none
      ∧ get_policy_type_for_version "1.30" = "PodSecurityStandardsStable") :=
  ⟨⟨by simp, C6_policy_type_for_version.2.2.2.2.1 "1.24" (by simp)⟩,
   ⟨by rfl, C6_policy_type_for_version.2.2.2.2.2.1 "1.30" (by rfl)⟩⟩

/-- C9: `analyze_pod_yaml` is deterministic — it is a pure function of the
parse outcome, the version string and the process-fixed `list(set(·))`
realization, so two calls with identical arguments yield identical analyses
in every field, including the order of the deduplicated recommendations
list; no hidden randomness or time-dependent input occurs in the source. -/
theorem C9_analyze_deterministic (setList : List String → List String)
    (y1 y2 : String) (l1 l2 : Except String Yaml) (v1 v2 : String)
    (hy : y1 = y2) (hl : l1 = l2) (hv : v1 = v2) :
    analyze_pod_yaml setList y1 l1 v1 = analyze_pod_yaml setList y2 l2 v2 := by
  subst hy hl hv
  rfl

/-- Witness for `C9_analyze_deterministic` on a concrete manifest. -/
theorem C9_analyze_deterministic_witness :
    analyze_pod_yaml anyOrder podSecureText (.ok podSecure) "1.24"
      = analyze_pod_yaml anyOrder podSecureText (.ok podSecure) "1.24" :=
  C9_analyze_deterministic anyOrder podSecureText podSecureText
    (.ok podSecure) (.ok podSecure) "1.24" "1.24" rfl rfl rfl

/-- C2: on a manifest whose parsed document has a `spec` entry, the
aggregate of the analysis is a pure function of the verdict list — the
overall score is the share of `secure` verdicts times 100 (0 when there are
none), baseline compliance holds exactly when no verdict is `critical`, and
restricted compliance holds exactly when no verdict is `critical` or
`warning`. -/
theorem C2_aggregates_from_verdicts (setList : List String → List String)
    (y v : String) (d : Yaml) (a : PodSecurityAnalysis)
    (hA : analyze_pod_yaml setList y (.ok d) v = .ok a)
    (hSpec : pyContains "spec" d = .ok true) :
    a.overall_score = specScore (verdictStatuses a)
    ∧ (a.policy_compliance.baseline = true ↔
        ∀ s ∈ verdictStatuses a, s ≠ "critical")
    ∧ (a.policy_compliance.restricted = true ↔
        ∀ s ∈ verdictStatuses a, s ≠ "critical" ∧ s ≠ "warning") := by
  simp only [analyze_pod_yaml, hSpec, except_bind_ok, Bool.not_true,
    Bool.false_eq_true, if_false] at hA
  cases hG : pyGetItem d "spec" with
  | error e => rw [hG, except_bind_error] at hA; simp at hA
  | ok ps =>
    rw [hG, except_bind_ok] at hA
    cases hE : extract_security_fields ps with
    | error e => rw [hE, except_bind_error] at hA; simp at hA
    | ok fields =>
      rw [hE, except_bind_ok] at hA
      cases hP : processFields v fields with
      | error e => rw [hP, except_bind_error] at hA; simp at hA
      | ok t =>
        obtain ⟨rs, cs, ws, recs⟩ := t
        rw [hP, except_bind_ok] at hA
        simp only [Except.ok.injEq] at hA
        subst hA
        refine ⟨?_, ?_, ?_⟩
        · simp only [verdictStatuses]
          rw [filterMap_entryStatus]
          exact overallScore_eq_specScore rs
        · simp only [verdictStatuses]
          rw [filterMap_entryStatus]
          exact baselineCompliant_iff rs
        · simp only [verdictStatuses]
          rw [filterMap_entryStatus]
          exact restrictedCompliant_iff rs

/-- Witness for `C2_aggregates_from_verdicts` on a concrete manifest with a
`spec` section. -/
theorem C2_aggregates_from_verdicts_witness :
    pyContains "spec" podSecure = .ok true
    ∧ ∃ a, analyze_pod_yaml anyOrder podSecureText (.ok podSecure) "1.24" = .ok a
        ∧ (a.overall_score = specScore (verdictStatuses a)
          ∧ (a.policy_compliance.baseline = true ↔
              ∀ s ∈ verdictStatuses a, s ≠ "critical")
          ∧ (a.policy_compliance.restricted = true ↔
              ∀ s ∈ verdictStatuses a, s ≠ "critical" ∧ s ≠ "warning")) :=
  ⟨rfl, _, rfl,
    C2_aggregates_from_verdicts anyOrder podSecureText "1.24" podSecure _ rfl rfl⟩

/-- C10: every analysis returned by `analyze_pod_yaml` — the terminal
malformed-YAML and missing-spec results included — satisfies the invariant
that restricted compliance implies baseline compliance, since the restricted
check rejects a superset of the statuses the baseline check rejects. -/
theorem C10_restricted_implies_baseline (setList : List String → List String)
    (y : String) (loaded : Except String Yaml) (v : String)
    (a : PodSecurityAnalysis)
    (hA : analyze_pod_yaml setList y loaded v = .ok a)
    (hR : a.policy_compliance.restricted = true) :
    a.policy_compliance.baseline = true := by
  cases loaded with
  | error e =>
    simp only [analyze_pod_yaml, Except.ok.injEq] at hA
    subst hA
    simp at hR
  | ok d =>
    simp only [analyze_pod_yaml] at hA
    cases hC : pyContains "spec" d with
    | error e => rw [hC, except_bind_error] at hA; simp at hA
    | ok b =>
      rw [hC, except_bind_ok] at hA
      cases b with
      | false =>
        simp only [Bool.not_false, if_true, Except.ok.injEq] at hA
        subst hA
        simp at hR
      | true =>
        simp only [Bool.not_true, Bool.false_eq_true, if_false] at hA
        cases hG : pyGetItem d "spec" with
        | error e => rw [hG, except_bind_error] at hA; simp at hA
        | ok ps =>
          rw [hG, except_bind_ok] at hA
          cases hE : extract_security_fields ps with
          | error e => rw [hE, except_bind_error] at hA; simp at hA
          | ok fields =>
            rw [hE, except_bind_ok] at hA
            cases hP : processFields v fields with
            | error e => rw [hP, except_bind_error] at hA; simp at hA
            | ok t =>
              obtain ⟨rs, cs, ws, recs⟩ := t
              rw [hP, except_bind_ok] at hA
              simp only [Except.ok.injEq] at hA
              subst hA
              exact restricted_imp_baseline rs hR

/-- Witness for `C10_restricted_implies_baseline` on a concrete
restricted-compliant analysis. -/
theorem C10_restricted_implies_baseline_witness :
    ∃ a, analyze_pod_yaml anyOrder podSecureText (.ok podSecure) "1.24" = .ok a
      ∧ a.policy_compliance.restricted = true
      ∧ a.policy_compliance.baseline = true :=
  ⟨_, rfl, rfl,
    C10_restricted_implies_baseline anyOrder podSecureText (.ok podSecure)
      "1.24" _ rfl rfl⟩

/-- C5: on version strings of the form `major.minor` with an optional
`patch` component, `_version_compare` compares numerically component by
component with a missing patch read as 0 — it equals the specification's
triple comparison, and in particular orders "1.9" before "1.10" (which a
lexical string comparison would not). -/
theorem C5_version_compare_numeric (v1 v2 : String)
    (h1 : wfVersion v1) (h2 : wfVersion v2) :
    version_compare v1 v2
      = .ok (tripleCmp (numericTriple v1) (numericTriple v2))
    ∧ version_compare "1.9" "1.10" = .ok (-1) := by
  obtain ⟨l1, hp1, hl1⟩ := h1
  obtain ⟨l2, hp2, hl2⟩ := h2
  refine ⟨?_, rfl⟩
  simp only [version_compare, numericTriple, hp1, hp2, except_bind_ok]
  rcases l1 with _ | ⟨a, _ | ⟨b, _ | ⟨c, l1⟩⟩⟩ <;>
    rcases l2 with _ | ⟨d, _ | ⟨e, _ | ⟨f, l2⟩⟩⟩ <;>
      simp_all <;>
        simp_all [cmpParts, cmpPadLeft, tripleCmp]

/-- Witness for `C5_version_compare_numeric` at the versions "1.9" and
"1.10". -/
theorem C5_version_compare_numeric_witness :
    wfVersion "1.9" ∧ wfVersion "1.10"
    ∧ version_compare "1.9" "1.10"
        = .ok (tripleCmp (numericTriple "1.9") (numericTriple "1.10"))
    ∧ version_compare "1.9" "1.10" = .ok (-1) :=
  have w1 : wfVersion "1.9" := ⟨[1, 9], rfl, Or.inl rfl⟩
  have w2 : wfVersion "1.10" := ⟨[1, 10], rfl, Or.inl rfl⟩
  ⟨w1, w2, (C5_version_compare_numeric "1.9" "1.10" w1 w2).1,
    (C5_version_compare_numeric "1.9" "1.10" w1 w2).2⟩

/-- One sub-query never returns more than `n_results` results. -/
theorem search_collection_length_le (col : Collection) (cn q : String)
    (n : Nat) (pl : Option PolicyLevel) (fn : Option String) :
    (_search_collection col cn q n pl fn).length ≤ n := by
  unfold _search_collection chromaQuery
  cases h : col q with
  | error e => simp [h, Except.map]
  | ok docs =>
    simp only [h, Except.map, List.length_map, List.length_take]
    exact Nat.min_le_left _ _

/-- Every result of one sub-query satisfies the metadata filter that was
passed to it. -/
theorem search_collection_matches (col : Collection) (cn q : String)
    (n : Nat) (pl : Option PolicyLevel) (fn : Option String)
    (r : SearchResult) (hr : r ∈ _search_collection col cn q n pl fn) :
    matchesWhere (buildWhereFilter pl fn) r.metadata = true := by
  unfold _search_collection chromaQuery at hr
  cases h : col q with
  | error e => rw [h] at hr; simp [Except.map] at hr
  | ok docs =>
    rw [h] at hr
    simp only [Except.map, List.mem_map] at hr
    obtain ⟨d, hd, rfl⟩ := hr
    have hd2 : d ∈ (docs.filter (matchesWhere (buildWhereFilter pl fn))).mergeSort byDist :=
      List.mem_of_mem_take hd
    rw [List.mem_mergeSort] at hd2
    exact (List.mem_filter.1 hd2).2

/-- A sub-query whose backend raises contributes the empty partition. -/
theorem search_collection_error_empty (err cn q : String) (n : Nat)
    (pl : Option PolicyLevel) (fn : Option String) :
    _search_collection (fun _ => .error err) cn q n pl fn = [] := rfl

/-- A sub-query against an empty collection contributes the empty
partition. -/
theorem search_collection_ok_nil (cn q : String) (n : Nat)
    (pl : Option PolicyLevel) (fn : Option String) :
    _search_collection (fun _ => .ok []) cn q n pl fn = [] := by
  simp [_search_collection, chromaQuery, Except.map, List.mergeSort_nil]

/-- C7: a `search` call is exactly the specification's merge — at most
three independent sub-queries (common when included, the requested version,
docs when included), each capped at `n_results` and each under the same
policy-level/field-name metadata filter, concatenated, sorted ascending by
distance and truncated to `2 * n_results` entries. -/
theorem C7_search_merges_subqueries (store : VectorStore) (q : String)
    (version : Option String) (n : Nat) (pl : Option PolicyLevel)
    (fn : Option String) (ic idc : Bool)
    (sub : List SearchResult) (r : SearchResult)
    (hsub : sub ∈ specSubQueries store q version n pl fn ic idc)
    (hr : r ∈ sub) :
    search store q version n pl fn ic idc
      = search_specified store q version n pl fn ic idc
    ∧ (search store q version n pl fn ic idc).length ≤ 2 * n
    ∧ sub.length ≤ n
    ∧ matchesWhere (buildWhereFilter pl fn) r.metadata = true := by
  have hcase : sub = [] ∨ ∃ col cn, sub = _search_collection col cn q n pl fn := by
    simp only [specSubQueries, List.mem_cons, List.not_mem_nil, or_false] at hsub
    rcases hsub with h | h | h
    · cases ic with
      | false => left; simpa using h
      | true => right; exact ⟨store.common, _, by simpa using h⟩
    · cases version with
      | none => left; simpa using h
      | some v =>
        by_cases hv : v.isEmpty
        · left; rw [h]; simp [hv]
        · right
          refine ⟨get_version_collection store v, versionCollectionName v, ?_⟩
          rw [h]; simp [hv]
    · cases idc with
      | false => left; simpa using h
      | true => right; exact ⟨store.docs, _, by simpa using h⟩
  refine ⟨?_, ?_, ?_, ?_⟩
  · unfold search search_specified specSubQueries
    simp [List.append_assoc, Nat.mul_comm]
  · unfold search
    simp only [List.length_take]
    exact le_trans (Nat.min_le_left _ _) (Nat.le_of_eq (Nat.mul_comm n 2))
  · rcases hcase with rfl | ⟨col, cn, rfl⟩
    · simp
    · exact search_collection_length_le col cn q n pl fn
  · rcases hcase with rfl | ⟨col, cn, rfl⟩
    · simp at hr
    · exact search_collection_matches col cn q n pl fn r hr

/-- Witness for `C7_search_merges_subqueries` on a concrete store: one
common chunk, a failing docs backend, no version collections. -/
theorem C7_search_merges_subqueries_witness :
    search wStore "q" (some "1.24") 3 none none true true
      = search_specified wStore "q" (some "1.24") 3 none none true true
    ∧ (search wStore "q" (some "1.24") 3 none none true true).length ≤ 2 * 3
    ∧ (_search_collection wStore.common "kubernetes_security_common" "q" 3 none none).length ≤ 3
    ∧ matchesWhere (buildWhereFilter none none)
        (SearchResult.metadata
          { id := "c1", content := "hostPID guidance", metadata := wChunk,
            distance := 1, collection := "kubernetes_security_common" }) = true :=
  C7_search_merges_subqueries wStore "q" (some "1.24") 3 none none true true
    (_search_collection wStore.common "kubernetes_security_common" "q" 3 none none)
    { id := "c1", content := "hostPID guidance", metadata := wChunk,
      distance := 1, collection := "kubernetes_security_common" }
    (by simp [specSubQueries])
    (by simp [_search_collection, chromaQuery, wStore, wChunk, Except.map,
          buildWhereFilter, matchesWhere, List.mergeSort_singleton])

/-- C8: search degrades gracefully — a requested version with no collection
contributes an empty partition (the call behaves as if no version had been
requested), a sub-query whose backend raises is caught and contributes zero
results, and replacing any one collection's failing backend by an empty one
leaves the search result unchanged (so the other partitions are still
returned). -/
theorem C8_search_degrades_gracefully (store : VectorStore) (q v : String)
    (n : Nat) (pl : Option PolicyLevel) (fn : Option String) (ic idc : Bool)
    (err cn : String) (version : Option String)
    (habsent : store.versionColls v = none) :
    search store q (some v) n pl fn ic idc = search store q none n pl fn ic idc
    ∧ _search_collection (fun _ => .error err) cn q n pl fn = []
    ∧ search { store with common := fun _ => .error err } q version n pl fn ic idc
        = search { store with common := fun _ => .ok [] } q version n pl fn ic idc
    ∧ search { store with docs := fun _ => .error err } q version n pl fn ic idc
        = search { store with docs := fun _ => .ok [] } q version n pl fn ic idc
    ∧ search { store with versionColls :=
          fun w => if w == v then some (fun _ => .error err) else store.versionColls w }
        q (some v) n pl fn ic idc
        = search { store with versionColls :=
            fun w => if w == v then some (fun _ => .ok []) else store.versionColls w }
          q (some v) n pl fn ic idc := by
  refine ⟨?_, search_collection_error_empty err cn q n pl fn, ?_, ?_, ?_⟩
  · simp [search, get_version_collection, habsent, search_collection_ok_nil]
  · simp [search, get_version_collection, search_collection_error_empty,
      search_collection_ok_nil]
  · simp [search, get_version_collection, search_collection_error_empty,
      search_collection_ok_nil]
  · simp [search, get_version_collection, search_collection_error_empty,
      search_collection_ok_nil]

/-- Witness for `C8_search_degrades_gracefully` on the sample store, whose
version-collection map is empty. -/
theorem C8_search_degrades_gracefully_witness :
    search wStore "q" (some "1.24") 2 none none true true
      = search wStore "q" none 2 none none true true
    ∧ _search_collection (fun _ => .error "down") "kubernetes_docs" "q" 2 none none = []
    ∧ search { wStore with common := fun _ => .error "down" } "q" (some "1.24") 2 none none true true
        = search { wStore with common := fun _ => .ok [] } "q" (some "1.24") 2 none none true true
    ∧ search { wStore with docs := fun _ => .error "down" } "q" (some "1.24") 2 none none true true
        = search { wStore with docs := fun _ => .ok [] } "q" (some "1.24") 2 none none true true
    ∧ search { wStore with versionColls :=
          fun w => if w == "1.24" then some (fun _ => .error "down") else wStore.versionColls w }
        "q" (some "1.24") 2 none none true true
        = search { wStore with versionColls :=
            fun w => if w == "1.24" then some (fun _ => .ok []) else wStore.versionColls w }
          "q" (some "1.24") 2 none none true true :=
  C8_search_degrades_gracefully wStore "q" "1.24" 2 none none true true
    "down" "kubernetes_docs" (some "1.24") rfl

end K8sSecRag
